import Mathlib

/-!
Shallow embedding of the GoIT_H8 address-book application
(src/address_book/book_tools.py, handler_functions.py, utils.py,
command_parser.py and src/main.py).

Python machine model used throughout:
- strings are Lean `String` (sequences of code points); character classes
  (`str.isdigit`, the `\d` of `strptime`) are modelled at the ASCII level;
- exceptions are an explicit `PyErr` value; a method that mutates `self`
  in place is embedded as a function returning the post-state together
  with an `Except PyErr` result, so that partial mutation before a raise
  stays observable;
- `dict` (via `UserDict`) is an insertion-ordered association list; key
  re-assignment keeps the key's position;
- `datetime.date` is a `(year, month, day)` triple; comparison of valid
  dates and `timedelta` arithmetic go through the proleptic-Gregorian
  ordinal, exactly as CPython's `date.toordinal` does; `date.weekday()`
  is Monday = 0 .. Sunday = 6.
-/

namespace GoitH8

/-- The Python exception kinds the handlers can raise
(`utils.input_error` distinguishes exactly these). -/
inductive PyErr where
  | indexError : PyErr
  | keyError : PyErr
  | attributeError : PyErr
  | valueError : String → PyErr
deriving DecidableEq, Repr

/-! ## Dates (model of `datetime.date`) -/

/-- A calendar date `(year, month, day)`. -/
structure SDate where
  y : Nat
  m : Nat
  d : Nat
deriving DecidableEq, Repr

/-- Gregorian leap-year rule (as used by `datetime`). -/
def isLeap (y : Nat) : Bool :=
  y % 4 == 0 && (y % 100 != 0 || y % 400 == 0)

/-- Number of days in month `m` of year `y` (0 for an out-of-range month). -/
def daysInMonth (y m : Nat) : Nat :=
  match m with
  | 1 => 31 | 2 => if isLeap y then 29 else 28
  | 3 => 31 | 4 => 30 | 5 => 31 | 6 => 30
  | 7 => 31 | 8 => 31 | 9 => 30 | 10 => 31
  | 11 => 30 | 12 => 31
  | _ => 0

/-- Days in year `y` strictly before month `m`. -/
def daysBeforeMonth (y m : Nat) : Nat :=
  (List.range (m - 1)).foldl (fun acc i => acc + daysInMonth y (i + 1)) 0

/-- Proleptic Gregorian ordinal of a date (0001-01-01 has ordinal 1),
matching CPython `date.toordinal`. -/
def ordDate (dt : SDate) : Nat :=
  (dt.y - 1) * 365 + (dt.y - 1) / 4 - (dt.y - 1) / 100 + (dt.y - 1) / 400
    + daysBeforeMonth dt.y dt.m + dt.d

/-- `date.weekday()`: Monday = 0 .. Sunday = 6
(0001-01-01 is a Monday in the proleptic Gregorian calendar). -/
def weekday (dt : SDate) : Nat :=
  (ordDate dt + 6) % 7

/-- Date comparison (`<` on `datetime.date`), via the ordinal. -/
def dateLt (a b : SDate) : Prop := ordDate a < ordDate b

/-- Date comparison (`<=` on `datetime.date`), via the ordinal. -/
def dateLe (a b : SDate) : Prop := ordDate a ≤ ordDate b

instance (a b : SDate) : Decidable (dateLt a b) := by
  unfold dateLt; infer_instance

instance (a b : SDate) : Decidable (dateLe a b) := by
  unfold dateLe; infer_instance

/-- The calendar successor of a date. -/
def nextDay (dt : SDate) : SDate :=
  if dt.d < daysInMonth dt.y dt.m then ⟨dt.y, dt.m, dt.d + 1⟩
  else if dt.m < 12 then ⟨dt.y, dt.m + 1, 1⟩
  else ⟨dt.y + 1, 1, 1⟩

/-- `dt + timedelta(days = n)`. -/
def addDays (dt : SDate) (n : Nat) : SDate :=
  match n with
  | 0 => dt
  | n + 1 => addDays (nextDay dt) n

/-- The range/consistency check done by the `datetime.date` constructor:
`MINYEAR <= y <= MAXYEAR`, `1 <= m <= 12`, `1 <= d <= days_in_month`. -/
def validYmd (y m d : Nat) : Bool :=
  1 ≤ y && y ≤ 9999 && 1 ≤ m && m ≤ 12 && 1 ≤ d && d ≤ daysInMonth y m

/-- `date(y, m, d)`: `none` models the `ValueError` raised on an invalid
combination (e.g. Feb 29 of a non-leap year). -/
def pyDateNew (y m d : Nat) : Option SDate :=
  if validYmd y m d then some ⟨y, m, d⟩ else none

/-- `dt.replace(year = y2)`: keeps month and day, revalidates. -/
def dateReplaceYear (dt : SDate) (y2 : Nat) : Option SDate :=
  pyDateNew y2 dt.m dt.d

/-- Decimal rendering zero-padded to width 2 (`strftime` `%d`, `%m`). -/
def pad2 (n : Nat) : String :=
  if n < 10 then "0" ++ toString n else toString n

/-- Decimal rendering zero-padded to width 4 (`strftime` `%Y`). -/
def pad4 (n : Nat) : String :=
  if n < 10 then "000" ++ toString n
  else if n < 100 then "00" ++ toString n
  else if n < 1000 then "0" ++ toString n
  else toString n

/-- `dt.strftime("%d.%m.%Y")`. -/
def formatDate (dt : SDate) : String :=
  pad2 dt.d ++ "." ++ pad2 dt.m ++ "." ++ pad4 dt.y

/-! ## `strptime(value, "%d.%m.%Y")` -/

/-- Numeric value of a digit run. -/
def digitsVal (cs : List Char) : Nat :=
  cs.foldl (fun acc c => acc * 10 + (c.toNat - 48)) 0

/-- The purely syntactic part of `strptime(s, "%d.%m.%Y")`: day and month
are runs of 1–2 digits within `1..31` / `1..12` (the `_strptime` regex),
the year is exactly 4 digits, separated by literal dots, consuming the
whole string.  Returns `(day, month, year)`. -/
def parseDMYparts (s : String) : Option (Nat × Nat × Nat) :=
  let cs := s.data
  let p1 := cs.span Char.isDigit
  let ds := p1.1
  if ds.length = 0 ∨ 2 < ds.length then none
  else if digitsVal ds < 1 ∨ 31 < digitsVal ds then none
  else
    match p1.2 with
    | '.' :: r2 =>
      let p2 := r2.span Char.isDigit
      let ms := p2.1
      if ms.length = 0 ∨ 2 < ms.length then none
      else if digitsVal ms < 1 ∨ 12 < digitsVal ms then none
      else
        match p2.2 with
        | '.' :: r4 =>
          let p3 := r4.span Char.isDigit
          if p3.1.length = 4 ∧ p3.2 = [] then
            some (digitsVal ds, digitsVal ms, digitsVal p3.1)
          else none
        | _ => none
    | _ => none

/-- `datetime.strptime(s, "%d.%m.%Y").date()`: syntactic match followed by
the `datetime` constructor's calendar validation. -/
def strptimeDMY (s : String) : Option SDate :=
  (parseDMYparts s).bind (fun t => pyDateNew t.2.2 t.2.1 t.1)

/-! ## Field validators (`Phone.__init__`, `Birthday.__init__`) -/

/-- `str.isdigit` (ASCII level): non-empty and all characters digits. -/
def pyIsdigit (s : String) : Bool :=
  !s.data.isEmpty && s.data.all Char.isDigit

/-- `Phone.__init__`: length must be exactly 10 and the string must be
all digits; on success the stored value is the string itself. -/
def phoneNew (s : String) : Except PyErr String :=
  if s.data.length ≠ 10 then
    .error (.valueError "The length of the telephone number must be 10 numbers.")
  else if !pyIsdigit s then
    .error (.valueError "Value must consist of numbers.")
  else .ok s

/-- Whether an error is one of the two `InvalidPhone` messages raised by
`Phone.__init__`. -/
def isInvalidPhone (e : PyErr) : Bool :=
  e == .valueError "The length of the telephone number must be 10 numbers."
    || e == .valueError "Value must consist of numbers."

/-- `Birthday.__init__`: `strptime` must succeed, otherwise the
`InvalidDate` error; on success the stored value is the raw string. -/
def birthdayNew (s : String) : Except PyErr String :=
  if (strptimeDMY s).isSome = true then .ok s
  else .error (.valueError "Invalid date format. Use DD.MM.YYYY")

/-- `Birthday.date`: re-parses the stored value. -/
def birthdayDate (s : String) : Option SDate :=
  strptimeDMY s

/-! ## `Record` -/

/-- A contact: `name` (the `Name` field's value), `phones` (the `Phone`
values, in list order) and the optional `birthday` (the validated raw
string a `Birthday` stores). -/
structure Record where
  name : String
  phones : List String
  birthday : Option String
deriving DecidableEq, Repr

/-- `Name.__init__` — no validation is performed, any string is stored. -/
def nameNew (s : String) : Except PyErr String :=
  .ok s

/-- `Record.__init__(name)`: wraps the name, empty phone list, no birthday. -/
def recordNew (name : String) : Except PyErr Record :=
  match nameNew name with
  | .error e => .error e
  | .ok v => .ok ⟨v, [], none⟩

/-- `Record.find_phone`: first phone whose value equals `p`, else `None`. -/
def find_phone (r : Record) (p : String) : Option String :=
  r.phones.find? (fun q => q == p)

/-- `Record.add_phone`: validates via `Phone.__init__`, then appends.
Returns the raised error (state unchanged) or the mutated record. -/
def add_phone (r : Record) (p : String) : Except PyErr Unit × Record :=
  match phoneNew p with
  | .error e => (.error e, r)
  | .ok v => (.ok (), { r with phones := r.phones ++ [v] })

/-- `Record.remove_phone`: `find_phone` then `list.remove` of the found
object — removes the first occurrence by value; `list.remove(None)` when
absent raises a `ValueError`. -/
def remove_phone (r : Record) (p : String) : Except PyErr Unit × Record :=
  match find_phone r p with
  | none => (.error (.valueError "list.remove(x): x not in list"), r)
  | some _ => (.ok (), { r with phones := r.phones.erase p })

/-- `Record.edit_phone`: find `old` (raise if absent), validate the new
number by constructing a `Phone`, then remove the old one and append a
freshly constructed `Phone(new_phone)`. -/
def edit_phone (r : Record) (oldP newP : String) : Except PyErr Unit × Record :=
  match find_phone r oldP with
  | none => (.error (.valueError "Old number not found."), r)
  | some _ =>
    match phoneNew newP with
    | .error e => (.error e, r)
    | .ok _ =>
      match remove_phone r oldP with
      | (.error e, r1) => (.error e, r1)
      | (.ok _, r1) =>
        match phoneNew newP with
        | .error e => (.error e, r1)
        | .ok v => (.ok (), { r1 with phones := r1.phones ++ [v] })

/-- `Record.add_birthday`: validates and overwrites the birthday. -/
def add_birthday (r : Record) (s : String) : Except PyErr Unit × Record :=
  match birthdayNew s with
  | .error e => (.error e, r)
  | .ok v => (.ok (), { r with birthday := some v })

/-- `Record.__str__`. -/
def recordStr (r : Record) : String :=
  "Contact name: " ++ r.name ++ ", phones: " ++ String.intercalate "; " r.phones
    ++ (match r.birthday with
        | some b => ", birthday: " ++ b
        | none => "")

/-! ## `AddressBook` -/

/-- The `UserDict` data: an insertion-ordered association of names to
records (Python dicts preserve insertion order; re-assigning an existing
key keeps its position). -/
abbrev AddressBook := List (String × Record)

/-- `AddressBook.add_record`: `self.data[record.name.value] = record`. -/
def add_record (book : AddressBook) (r : Record) : AddressBook :=
  if book.any (fun e => e.1 == r.name) then
    book.map (fun e => if e.1 == r.name then (e.1, r) else e)
  else book ++ [(r.name, r)]

/-- `AddressBook.find`: `self.data.get(name)`. -/
def bookFind (book : AddressBook) (name : String) : Option Record :=
  book.lookup name

/-- `AddressBook.delete`: removes the entry if present, no-op otherwise. -/
def bookDelete (book : AddressBook) (name : String) : AddressBook :=
  book.filter (fun e => e.1 != name)

/-- In-place mutation of the record stored under `name` (the aliasing of
a `Record` object held inside the dict). -/
def updateRecord (book : AddressBook) (name : String) (f : Record → Record) :
    AddressBook :=
  book.map (fun e => if e.1 == name then (e.1, f e.2) else e)

/-- One entry of the `get_upcoming_birthdays` result: the dict
`{"name": ..., "birthday": cong_day.strftime("%d.%m.%Y")}`. -/
structure BdayEntry where
  name : String
  birthday : String
deriving DecidableEq, Repr

/-- The loop body of `AddressBook.get_upcoming_birthdays` over the
remaining `self.data.values()`, threading the raised exception
(`date.replace` can raise for a Feb-29 birthday and a non-leap target
year; `strptime` re-parses the stored value). -/
def gubGo (today : SDate) : List (String × Record) → Except PyErr (List BdayEntry)
  | [] => .ok []
  | (_, r) :: rest =>
    match r.birthday with
    | none => gubGo today rest
    | some bstr =>
      match strptimeDMY bstr with
      | none => .error (.valueError "Invalid date stored")
      | some bd =>
        match dateReplaceYear bd today.y with
        | none => .error (.valueError "day is out of range for month")
        | some b1 =>
          match (if dateLt b1 today then dateReplaceYear b1 (today.y + 1)
                 else some b1) with
          | none => .error (.valueError "day is out of range for month")
          | some b2 =>
            if dateLe today b2 ∧ dateLe b2 (addDays today 7) then
              match gubGo today rest with
              | .error e => .error e
              | .ok tail =>
                .ok (⟨r.name,
                      formatDate
                        (if 5 ≤ weekday b2 then addDays b2 (7 - weekday b2)
                         else b2)⟩ :: tail)
            else gubGo today rest

/-- `AddressBook.get_upcoming_birthdays` with the ambient
`datetime.today().date()` passed explicitly. -/
def get_upcoming_birthdays (today : SDate) (book : AddressBook) :
    Except PyErr (List BdayEntry) :=
  gubGo today book

/-! ## Command handlers (`handler_functions.py`) -/

/-- The raw (unwrapped) type of a handler: arguments and the address
book in, a result or raised exception plus the possibly mutated book
out. -/
def Handler : Type :=
  List String → AddressBook → Except PyErr String × AddressBook

/-- `hello`. -/
def hello : Handler := fun _ book =>
  (.ok "How can I help you?", book)

/-- `add_contact`: `args[0]`/`args[1]` can raise `IndexError`; a fresh
`Record` is inserted into the book *before* `add_phone` runs, so an
invalid phone still leaves the new (phoneless) contact behind. -/
def add_contact : Handler := fun args book =>
  match args with
  | [] => (.error .indexError, book)
  | [_] => (.error .indexError, book)
  | name :: phoneArg :: _ =>
    match bookFind book name with
    | none =>
      let book1 := add_record book ⟨name, [], none⟩
      match phoneNew phoneArg with
      | .error e => (.error e, book1)
      | .ok v =>
        (.ok "Contact added.",
         updateRecord book1 name (fun r => { r with phones := r.phones ++ [v] }))
    | some _ =>
      match phoneNew phoneArg with
      | .error e => (.error e, book)
      | .ok v =>
        (.ok "Contact update.",
         updateRecord book name (fun r => { r with phones := r.phones ++ [v] }))

/-- `change`: wrong arity returns a plain message; a missing contact
means `record` is `None` and the method call raises `AttributeError`. -/
def change : Handler := fun args book =>
  if args.length ≠ 3 then
    (.ok "Enter name, old phone and new phone.", book)
  else
    match args with
    | name :: oldP :: newP :: _ =>
      match bookFind book name with
      | none => (.error .attributeError, book)
      | some r =>
        match edit_phone r oldP newP with
        | (.error e, r1) => (.error e, updateRecord book name (fun _ => r1))
        | (.ok _, r1) =>
          (.ok "Contact updated.", updateRecord book name (fun _ => r1))
    | _ => (.error .indexError, book)

/-- `phone`. -/
def phone : Handler := fun args book =>
  match args with
  | [] => (.error .indexError, book)
  | name :: _ =>
    match bookFind book name with
    | none => (.error .attributeError, book)
    | some r =>
      (.ok (name ++ ": " ++ String.intercalate "; " r.phones), book)

/-- `add_bday`: the tuple unpacking `name, birthday, *_ = args` raises a
`ValueError` for fewer than two arguments. -/
def add_bday : Handler := fun args book =>
  match args with
  | [] =>
    (.error (.valueError "not enough values to unpack (expected at least 2, got 0)"),
     book)
  | [_] =>
    (.error (.valueError "not enough values to unpack (expected at least 2, got 1)"),
     book)
  | name :: bday :: _ =>
    match bookFind book name with
    | none => (.error .attributeError, book)
    | some _ =>
      match birthdayNew bday with
      | .error e => (.error e, book)
      | .ok v =>
        (.ok "Birthday added.",
         updateRecord book name (fun r => { r with birthday := some v }))

/-- `show_bday`. -/
def show_bday : Handler := fun args book =>
  match args with
  | [] => (.error .indexError, book)
  | name :: _ =>
    match bookFind book name with
    | none => (.error .attributeError, book)
    | some r =>
      match r.birthday with
      | none => (.ok (name ++ " has no birthday saved."), book)
      | some b => (.ok (name ++ "\x27s birthday: " ++ b), book)

/-- `bdays` (the `birthdays` command). -/
def bdays (today : SDate) : Handler := fun _ book =>
  match get_upcoming_birthdays today book with
  | .error e => (.error e, book)
  | .ok lst =>
    if lst.isEmpty then
      (.ok "There are no birthdays in the next 7 days.", book)
    else
      (.ok (String.intercalate "\n"
        (lst.map (fun p => "Congratulate " ++ p.name ++ " — " ++ p.birthday))),
       book)

/-- `all` (list every contact). -/
def allContacts : Handler := fun _ book =>
  if book.isEmpty then (.ok "No contacts saved.", book)
  else (.ok (String.intercalate "\n" (book.map (fun e => recordStr e.2))), book)

/-- `goodbye` (`close` / `exit`). -/
def goodbye : Handler := fun _ book =>
  (.ok "Good bye!", book)

/-! ## Error funnel and dispatch (`utils.py`, `main.py`) -/

/-- The message each caught exception class is converted to by
`input_error`'s `except` clauses. -/
def errMessage : PyErr → String
  | .indexError => "Not enough arguments."
  | .keyError => "Contact not found."
  | .attributeError => "Operation failed. Contact may not exist."
  | .valueError msg => "Error: " ++ msg

/-- `input_error`: wraps a handler so every raised exception becomes a
user-facing message; the book state at the raise point is kept. -/
def input_error (h : Handler) :
    List String → AddressBook → String × AddressBook := fun args book =>
  match h args book with
  | (.ok s, b1) => (s, b1)
  | (.error e, b1) => (errMessage e, b1)

/-- The `COMMANDS` dictionary, with the ambient clock made explicit for
the `birthdays` entry. -/
def COMMANDS (today : SDate) : List (String × Handler) :=
  [("hello", hello),
   ("add", add_contact),
   ("change", change),
   ("phone", phone),
   ("add-birthday", add_bday),
   ("show-birthday", show_bday),
   ("birthdays", bdays today),
   ("all", allContacts),
   ("close", goodbye),
   ("exit", goodbye)]

/-- `COMMANDS[command](args, address_book)` after the membership test:
`none` exactly when the command is unknown. -/
def dispatch (today : SDate) (cmd : String) (args : List String)
    (book : AddressBook) : Option (String × AddressBook) :=
  match (COMMANDS today).lookup cmd with
  | none => none
  | some h => some (input_error h args book)

/-- Worker for `str.split()`: walk the characters, accumulating the
current token (reversed), breaking at whitespace runs. -/
def splitWsChars : List Char → List Char → List String
  | [], acc => if acc.isEmpty then [] else [String.mk acc.reverse]
  | c :: cs, acc =>
    if c.isWhitespace then
      if acc.isEmpty then splitWsChars cs []
      else String.mk acc.reverse :: splitWsChars cs []
    else splitWsChars cs (c :: acc)

/-- Python `str.split()` with no arguments: split on whitespace runs,
discarding empty pieces. -/
def splitWs (s : String) : List String :=
  splitWsChars s.data []

/-- Python `str.strip()`: drop leading and trailing whitespace. -/
def pyStrip (s : String) : String :=
  String.mk
    (((s.data.dropWhile Char.isWhitespace).reverse.dropWhile
        Char.isWhitespace).reverse)

/-- Python `str.lower()` (ASCII level). -/
def pyLower (s : String) : String :=
  String.mk (s.data.map (fun c =>
    if 65 ≤ c.toNat ∧ c.toNat ≤ 90 then Char.ofNat (c.toNat + 32) else c))

/-- Model of `parse_input`: strip, split, lowercase the command token
(`none` for all-whitespace input, where the source returns `()`). -/
def parse_input (s : String) : Option (String × List String) :=
  match splitWs (pyStrip s) with
  | [] => none
  | w :: ws => some (pyLower w, ws)

/-- Straight-line command execution: run each input line through
`parse_input` and the dispatch boundary, collecting the printed replies
(unknown commands print "Invalid command.", empty input re-prompts). -/
def runCommands (today : SDate) (book : AddressBook) :
    List String → AddressBook × List String
  | [] => (book, [])
  | line :: rest =>
    match parse_input line with
    | none =>
      let r := runCommands today book rest
      (r.1, "Enter a command please." :: r.2)
    | some (cmd, args) =>
      match dispatch today cmd args book with
      | none =>
        let r := runCommands today book rest
        (r.1, "Invalid command." :: r.2)
      | some (msg, book1) =>
        let r := runCommands today book1 rest
        (r.1, msg :: r.2)

/-- The `main` loop: `book = AddressBook.load_data()` and a *separate*
`address_book = AddressBook()` are created; every handler runs against
`address_book`, but on `close`/`exit` it is `book.save_data()` that
persists.  Returns `(saved directory, session directory)` at the exit
command, or `none` when the input ends without one. -/
def mainLoop (today : SDate) (book addressBook : AddressBook) :
    List String → Option (AddressBook × AddressBook)
  | [] => none
  | line :: rest =>
    if pyStrip line = "" then mainLoop today book addressBook rest
    else
      match parse_input line with
      | none => mainLoop today book addressBook rest
      | some (cmd, args) =>
        match dispatch today cmd args addressBook with
        | none => mainLoop today book addressBook rest
        | some (_, ab1) =>
          if cmd = "close" ∨ cmd = "exit" then some (book, ab1)
          else mainLoop today book ab1 rest

/-- A whole session of `main`: `persisted` is what `load_data` returned;
the session's working book starts empty (`AddressBook()`). -/
def mainSession (today : SDate) (persisted : AddressBook)
    (inputs : List String) : Option (AddressBook × AddressBook) :=
  mainLoop today persisted [] inputs

/-! ## Claim-side description of the upcoming-birthday query

These definitions follow the words of the specification ("project onto
the current year, re-project onto the next year if already past, include
iff inside the inclusive 7-day window, shift Saturday by 2 days and
Sunday by 1 day, emit one entry per qualifying record in insertion
order") and are compared with `get_upcoming_birthdays` above. -/

/-- Spec wording: project the birthday's month/day onto the current
year; if that date is before today, re-project onto the next year. -/
def specProject (today : SDate) (bd : SDate) : Option SDate :=
  (dateReplaceYear bd today.y).bind (fun c =>
    if dateLt c today then dateReplaceYear c (today.y + 1) else some c)

/-- Spec wording: a Saturday congratulation date moves forward 2 days
and a Sunday one 1 day, both to the following Monday; weekdays stay. -/
def specShift (c : SDate) : SDate :=
  if weekday c = 5 then addDays c 2
  else if weekday c = 6 then addDays c 1
  else c

/-- Spec wording, per record: parse the stored birthday, project it,
keep it only when it lies in `today .. today + 7` inclusive, and shift
a weekend date to the following Monday. -/
def specEntry (today : SDate) (r : Record) : Option BdayEntry :=
  r.birthday.bind (fun bstr =>
    (strptimeDMY bstr).bind (fun bd =>
      (specProject today bd).bind (fun c =>
        if dateLe today c ∧ dateLe c (addDays today 7) then
          some ⟨r.name, formatDate (specShift c)⟩
        else none)))

/-- Spec wording: one `(name, congratulation date)` entry per qualifying
record, in the directory's insertion order. -/
def specUpcoming (today : SDate) (book : AddressBook) : List BdayEntry :=
  book.filterMap (fun e => specEntry today e.2)

/-- The weekend shift written in the source (`7 - weekday` days whenever
`weekday >= 5`) agrees with the spec's case split. -/
theorem sourceShift_eq_specShift (c : SDate) :
    (if 5 ≤ weekday c then addDays c (7 - weekday c) else c) = specShift c := by
  have h7 : weekday c < 7 := Nat.mod_lt _ (by norm_num)
  unfold specShift
  by_cases h5 : weekday c = 5
  · simp [h5]
  · by_cases h6 : weekday c = 6
    · simp [h6]
    · have hlt : ¬ 5 ≤ weekday c := by omega
      simp [h5, h6, hlt]

/-- Refinement of the query loop. -/
theorem gubGo_eq_specUpcoming (today : SDate) :
    ∀ (es : List (String × Record)) (out : List BdayEntry),
      gubGo today es = Except.ok out → out = specUpcoming today es := by
  intro es
  induction es with
  | nil =>
    intro out h
    simp only [gubGo] at h
    injection h with h
    simp [specUpcoming, ← h]
  | cons e rest ih =>
    obtain ⟨k, r⟩ := e
    intro out h
    simp only [gubGo] at h
    split at h
    next hb =>
      have hfa : (fun (e : String × Record) => specEntry today e.2) (k, r)
          = none := by
        simp [specEntry, hb]
      simp only [specUpcoming]
      rw [@List.filterMap_cons_none _ _ (fun (e : String × Record) => specEntry today e.2) (k, r) rest hfa]
      exact ih out h
    next bstr hb =>
      split at h
      next hp => simp at h
      next bd hp =>
        split at h
        next h1 => simp at h
        next b1 h1 =>
          by_cases hlt : dateLt b1 today
          · rw [if_pos hlt] at h
            split at h
            next h2 => simp at h
            next b2 h2 =>
              by_cases hw : dateLe today b2 ∧ dateLe b2 (addDays today 7)
              · rw [if_pos hw] at h
                split at h
                next hg => simp at h
                next tail hg =>
                  injection h with h
                  have hfa : (fun (e : String × Record) => specEntry today e.2)
                      (k, r) = some ⟨r.name, formatDate (specShift b2)⟩ := by
                    simp [specEntry, hb, hp, specProject, h1, hlt, h2, hw]
                  simp only [specUpcoming]
                  rw [@List.filterMap_cons_some _ _
                    (fun (e : String × Record) => specEntry today e.2) (k, r)
                    rest ⟨r.name, formatDate (specShift b2)⟩ hfa, ← h,
                    sourceShift_eq_specShift b2, ih tail hg]
                  rfl
              · rw [if_neg hw] at h
                have hfa : (fun (e : String × Record) => specEntry today e.2)
                    (k, r) = none := by
                  simp [specEntry, hb, hp, specProject, h1, hlt, h2, hw]
                simp only [specUpcoming]
                rw [@List.filterMap_cons_none _ _ (fun (e : String × Record) => specEntry today e.2) (k, r) rest hfa]
                exact ih out h
          · rw [if_neg hlt] at h
            replace h :
                (if dateLe today b1 ∧ dateLe b1 (addDays today 7) then
                  match gubGo today rest with
                  | Except.error e => Except.error e
                  | Except.ok tail =>
                    Except.ok
                      (BdayEntry.mk r.name
                        (formatDate
                          (if 5 ≤ weekday b1 then addDays b1 (7 - weekday b1)
                           else b1)) :: tail)
                 else gubGo today rest) = Except.ok out := h
            by_cases hw : dateLe today b1 ∧ dateLe b1 (addDays today 7)
            · rw [if_pos hw] at h
              split at h
              next hg => simp at h
              next tail hg =>
                injection h with h
                have hfa : (fun (e : String × Record) => specEntry today e.2)
                    (k, r) = some ⟨r.name, formatDate (specShift b1)⟩ := by
                  simp [specEntry, hb, hp, specProject, h1, hlt, hw]
                simp only [specUpcoming]
                rw [@List.filterMap_cons_some _ _
                  (fun (e : String × Record) => specEntry today e.2) (k, r)
                  rest ⟨r.name, formatDate (specShift b1)⟩ hfa, ← h,
                  sourceShift_eq_specShift b1, ih tail hg]
                rfl
            · rw [if_neg hw] at h
              have hfa : (fun (e : String × Record) => specEntry today e.2)
                  (k, r) = none := by
                simp [specEntry, hb, hp, specProject, h1, hlt, hw]
              simp only [specUpcoming]
              rw [@List.filterMap_cons_none _ _ (fun (e : String × Record) => specEntry today e.2) (k, r) rest hfa]
              exact ih out h


/-! ## Helper lemmas for the validators -/

/-- Whether an `Except` result is a success (no exception raised). -/
def resultOk {α : Type} : Except PyErr α → Bool
  | .ok _ => true
  | .error _ => false

@[simp]
theorem resultOk_ok {α : Type} (x : α) : resultOk (Except.ok x) = true := rfl

@[simp]
theorem resultOk_error {α : Type} (e : PyErr) :
    resultOk (Except.error e : Except PyErr α) = false := rfl

theorem phoneNew_ok_of_valid (s : String)
    (h : s.data.length = 10 ∧ s.data.all Char.isDigit = true) :
    phoneNew s = Except.ok s := by
  have hne : s.data.isEmpty = false := by
    cases hd : s.data with
    | nil => rw [hd] at h; simp at h
    | cons a t => simp
  simp [phoneNew, pyIsdigit, h.1, h.2, hne]

theorem phoneNew_ok_iff (s : String) :
    resultOk (phoneNew s) = true ↔
      (s.data.length = 10 ∧ s.data.all Char.isDigit = true) := by
  constructor
  · intro h
    unfold phoneNew at h
    by_cases hlen : s.data.length = 10
    · rw [if_neg (by omega)] at h
      cases hdig : pyIsdigit s with
      | true =>
        have hdig2 : s.data.all Char.isDigit = true := by
          unfold pyIsdigit at hdig
          simp only [Bool.and_eq_true] at hdig
          exact hdig.2
        exact ⟨hlen, hdig2⟩
      | false =>
        rw [hdig] at h
        simp at h
    · rw [if_pos (by omega)] at h
      simp at h
  · intro h2
    rw [phoneNew_ok_of_valid s h2]
    rfl

theorem phoneNew_error_invalid (s : String) (e : PyErr)
    (h : phoneNew s = Except.error e) : isInvalidPhone e = true := by
  unfold phoneNew at h
  split at h
  · injection h with h
    rw [← h]
    decide
  · split at h
    · injection h with h
      rw [← h]
      decide
    · exact absurd h (by simp)

theorem find_phone_some_of_mem (r : Record) (p : String)
    (h : p ∈ r.phones) : ∃ x, find_phone r p = some x := by
  unfold find_phone
  rw [← Option.isSome_iff_exists, List.find?_isSome]
  exact ⟨p, h, by simp⟩

theorem find_phone_none_of_not_mem (r : Record) (p : String)
    (h : p ∉ r.phones) : find_phone r p = none := by
  unfold find_phone
  rw [List.find?_eq_none]
  intro x hx hbeq
  have hxp : x = p := by simpa using hbeq
  exact h (hxp ▸ hx)

/-! ## Claim theorems -/

/-- C1: for every record with a birthday, `get_upcoming_birthdays`
projects the birthday onto the current year, re-projects onto the next
year when already past, includes the record iff the projected date lies
in the inclusive window `today .. today + 7`, shifts Saturday forward 2
days and Sunday forward 1 day (weekdays never), and emits one
`(name, congratulation date)` entry per qualifying record in the
directory's insertion order — stated as: every successful run equals the
spec-side description `specUpcoming`. -/
theorem upcoming_birthdays_match_spec (today : SDate) (book : AddressBook)
    (out : List BdayEntry)
    (h : get_upcoming_birthdays today book = Except.ok out) :
    out = specUpcoming today book :=
  gubGo_eq_specUpcoming today book out h

/-- Witness for C1 at a concrete directory: 2024-01-06 is a Saturday, so
John's greeting moves to Monday 2024-01-08; Ann's March birthday is
outside the window; order follows insertion order. -/
theorem upcoming_birthdays_match_spec_witness :
    get_upcoming_birthdays ⟨2024, 1, 1⟩
        [("John", ⟨"John", [], some "06.01.2000"⟩),
         ("Ann", ⟨"Ann", ["1234567890"], some "15.03.1990"⟩)] =
      Except.ok [⟨"John", "08.01.2024"⟩]
    ∧ [(⟨"John", "08.01.2024"⟩ : BdayEntry)] =
        specUpcoming ⟨2024, 1, 1⟩
          [("John", ⟨"John", [], some "06.01.2000"⟩),
           ("Ann", ⟨"Ann", ["1234567890"], some "15.03.1990"⟩)] :=
  ⟨by rfl,
   upcoming_birthdays_match_spec ⟨2024, 1, 1⟩
     [("John", ⟨"John", [], some "06.01.2000"⟩),
      ("Ann", ⟨"Ann", ["1234567890"], some "15.03.1990"⟩)]
     [⟨"John", "08.01.2024"⟩] (by rfl)⟩

/-- C2 (evaluating the code at the failing input): a session that adds
John and exits saves the *pre-loaded* directory (still empty) while the
session's working directory holds John — the mutations of the session
are discarded, because `main` saves `book` but the handlers mutate the
separate `address_book`. -/
theorem exit_saves_preloaded_not_session_book :
    mainSession ⟨2024, 1, 1⟩ [] ["add John 1234567890", "close"] =
      some ([], [("John", ⟨"John", ["1234567890"], none⟩)]) := by
  rfl

/-- C3: when `old` is present and `new` is a valid 10-digit phone,
`edit_phone` removes the first occurrence of `old` and appends `new` at
the end. -/
theorem edit_phone_success (r : Record) (oldP newP : String)
    (hold : oldP ∈ r.phones)
    (hnew : newP.data.length = 10 ∧ newP.data.all Char.isDigit = true) :
    edit_phone r oldP newP =
      (Except.ok (), { r with phones := r.phones.erase oldP ++ [newP] }) := by
  have hok : phoneNew newP = Except.ok newP := phoneNew_ok_of_valid newP hnew
  obtain ⟨x, hx⟩ := find_phone_some_of_mem r oldP hold
  unfold edit_phone remove_phone
  rw [hx, hok]

/-- Witness for C3: a duplicated old number — only the first occurrence
is replaced, and the new number lands at the end. -/
theorem edit_phone_success_witness :
    edit_phone ⟨"John", ["1234567890", "0987654321", "1234567890"], none⟩
        "1234567890" "1111111111" =
      (Except.ok (),
        ⟨"John", ["0987654321", "1234567890", "1111111111"], none⟩) :=
  edit_phone_success ⟨"John", ["1234567890", "0987654321", "1234567890"], none⟩
    "1234567890" "1111111111" (by decide) (by decide)

/-- C4: `edit_phone` fails with the `PhoneNotFound` error when `old` is
absent, fails with an `InvalidPhone` error when `old` is present but
`new` is malformed, and in both failure cases the record (hence its
phone list) is exactly as before the call — `new` is validated before
any mutation. -/
theorem edit_phone_failure_frame (r : Record) (oldP newP : String) :
    (oldP ∉ r.phones →
      edit_phone r oldP newP =
        (Except.error (PyErr.valueError "Old number not found."), r))
    ∧ (oldP ∈ r.phones → ∀ e, phoneNew newP = Except.error e →
        isInvalidPhone e = true ∧
          edit_phone r oldP newP = (Except.error e, r)) := by
  constructor
  · intro hab
    unfold edit_phone
    rw [find_phone_none_of_not_mem r oldP hab]
  · intro hmem e he
    refine ⟨phoneNew_error_invalid newP e he, ?_⟩
    obtain ⟨x, hx⟩ := find_phone_some_of_mem r oldP hmem
    unfold edit_phone
    rw [hx, he]

/-- Witness for C4: absent old number → `PhoneNotFound`, record intact;
present old number with malformed new number → `InvalidPhone`, record
intact. -/
theorem edit_phone_failure_frame_witness :
    edit_phone ⟨"A", ["1111111111"], none⟩ "2222222222" "3333333333" =
      (Except.error (PyErr.valueError "Old number not found."),
        ⟨"A", ["1111111111"], none⟩)
    ∧ (isInvalidPhone (PyErr.valueError
          "The length of the telephone number must be 10 numbers.") = true
       ∧ edit_phone ⟨"A", ["1111111111"], none⟩ "1111111111" "123" =
          (Except.error (PyErr.valueError
              "The length of the telephone number must be 10 numbers."),
            ⟨"A", ["1111111111"], none⟩)) :=
  ⟨(edit_phone_failure_frame ⟨"A", ["1111111111"], none⟩
      "2222222222" "3333333333").1 (by decide),
   (edit_phone_failure_frame ⟨"A", ["1111111111"], none⟩
      "1111111111" "123").2 (by decide)
     (PyErr.valueError "The length of the telephone number must be 10 numbers.")
     (by rfl)⟩

/-- C5 counterexample: running the claimed command sequence, the
`phone John` command shows `0987654321; 1111111111` — the *untouched*
phone first and the edited phone appended last — not the claimed
`1111111111; 0987654321`. -/
theorem change_scenario_output_counterexample :
    (runCommands ⟨2024, 1, 1⟩ []
        ["add John 1234567890", "add John 0987654321",
         "change John 1234567890 1111111111", "phone John"]).2 =
      ["Contact added.", "Contact update.", "Contact updated.",
       "John: 0987654321; 1111111111"]
    ∧ ("John: 0987654321; 1111111111" : String) ≠
        "John: 1111111111; 0987654321" :=
  ⟨by rfl, by decide⟩

/-- C5 as amended: after `add John 1234567890`, `add John 0987654321`
and `change John 1234567890 1111111111` (which answers
"Contact updated."), `phone John` shows `0987654321; 1111111111`: the
untouched phone first, the edited phone appended at the end. -/
theorem change_scenario_output_actual :
    runCommands ⟨2024, 1, 1⟩ []
        ["add John 1234567890", "add John 0987654321",
         "change John 1234567890 1111111111", "phone John"] =
      ([("John", ⟨"John", ["0987654321", "1111111111"], none⟩)],
       ["Contact added.", "Contact update.", "Contact updated.",
        "John: 0987654321; 1111111111"]) := by
  rfl

/-- C6: phone validation succeeds iff the string has length exactly 10
and every character is a decimal digit; any failure is one of the two
`InvalidPhone` errors. -/
theorem phone_validation_characterization (s : String) :
    (resultOk (phoneNew s) = true ↔
      (s.data.length = 10 ∧ ∀ c ∈ s.data, c.isDigit = true))
    ∧ (∀ e, phoneNew s = Except.error e → isInvalidPhone e = true) := by
  refine ⟨?_, fun e he => phoneNew_error_invalid s e he⟩
  rw [phoneNew_ok_iff]
  simp [List.all_eq_true]

/-- Witness for C6: a valid 10-digit string is accepted; a length-10
string with letters is rejected with an `InvalidPhone` error. -/
theorem phone_validation_characterization_witness :
    resultOk (phoneNew "0123456789") = true ∧
      isInvalidPhone (PyErr.valueError "Value must consist of numbers.") = true :=
  ⟨(phone_validation_characterization "0123456789").1.mpr (by decide),
   (phone_validation_characterization "12345abcde").2
     (PyErr.valueError "Value must consist of numbers.") (by rfl)⟩

/-- C7: birthday validation succeeds iff the string matches the
`DD.MM.YYYY` shape accepted by `strptime` and denotes a real calendar
date (so `30.02.2024` and `31.02.2023` are rejected); on success the
parsed date is exposed via `Birthday.date` for comparison. -/
theorem birthday_validation_characterization (s : String) :
    (resultOk (birthdayNew s) = true ↔
      ∃ d m y, parseDMYparts s = some (d, m, y) ∧ validYmd y m d = true)
    ∧ (resultOk (birthdayNew s) = true → (birthdayDate s).isSome = true) := by
  have hdate : resultOk (birthdayNew s) = true →
      (strptimeDMY s).isSome = true := by
    intro h
    by_cases hs : (strptimeDMY s).isSome = true
    · exact hs
    · unfold birthdayNew at h
      rw [if_neg hs] at h
      simp at h
  refine ⟨⟨?_, ?_⟩, hdate⟩
  · intro h
    obtain ⟨dt, hdt⟩ := Option.isSome_iff_exists.mp (hdate h)
    unfold strptimeDMY at hdt
    cases hp : parseDMYparts s with
    | none => rw [hp] at hdt; simp at hdt
    | some t =>
      obtain ⟨d, m, y⟩ := t
      rw [hp] at hdt
      simp only [Option.some_bind] at hdt
      refine ⟨d, m, y, rfl, ?_⟩
      unfold pyDateNew at hdt
      by_cases hv : validYmd y m d = true
      · exact hv
      · rw [if_neg hv] at hdt
        simp at hdt
  · rintro ⟨d, m, y, hp, hv⟩
    have hs : strptimeDMY s = some ⟨y, m, d⟩ := by
      unfold strptimeDMY
      rw [hp]
      simp [pyDateNew, hv]
    unfold birthdayNew
    rw [if_pos (by simp [hs])]
    rfl

/-- Witness for C7: the real leap date `29.02.2024` is accepted and its
parsed date exposed; the impossible `31.02.2023` is rejected. -/
theorem birthday_validation_characterization_witness :
    resultOk (birthdayNew "29.02.2024") = true ∧
      resultOk (birthdayNew "31.02.2023") = false ∧
      (birthdayDate "29.02.2024").isSome = true :=
  ⟨(birthday_validation_characterization "29.02.2024").1.mpr
     ⟨29, 2, 2024, by rfl, by decide⟩,
   by rfl,
   (birthday_validation_characterization "29.02.2024").2
     ((birthday_validation_characterization "29.02.2024").1.mpr
       ⟨29, 2, 2024, by rfl, by decide⟩)⟩

/-- C8: for every command registered in `COMMANDS`, dispatching through
the `input_error` boundary always yields a user-facing message string
(and a resulting directory) — no handler error escapes, for any
argument list and any directory state. -/
theorem dispatch_always_returns_message (today : SDate) (cmd : String)
    (h : ((COMMANDS today).lookup cmd).isSome = true) (args : List String)
    (book : AddressBook) :
    ∃ msg book1, dispatch today cmd args book = some (msg, book1) := by
  obtain ⟨hh, hl⟩ := Option.isSome_iff_exists.mp h
  refine ⟨(input_error hh args book).1, (input_error hh args book).2, ?_⟩
  unfold dispatch
  rw [hl]

/-- Witness for C8: the `change` command with too few arguments (a
handler-level error case) still dispatches to a message. -/
theorem dispatch_always_returns_message_witness :
    ∃ msg book1,
      dispatch ⟨2024, 1, 1⟩ "change" ["John"] [] = some (msg, book1) :=
  dispatch_always_returns_message ⟨2024, 1, 1⟩ "change" (by rfl) ["John"] []

/-- C9 counterexample: constructing a `Record` with the *empty* name
succeeds (no non-emptiness validation exists in `Name.__init__` or
`Record.__init__`), refuting "succeeds only for a non-empty name". -/
theorem record_empty_name_succeeds :
    recordNew "" = Except.ok ⟨"", [], none⟩ ∧ ("" : String).data.length = 0 :=
  ⟨rfl, rfl⟩

/-- C9 as amended: constructing a `Record` succeeds for *every* name
string — the code performs no non-emptiness check — and the constructed
record has an empty phone list and no birthday. -/
theorem record_new_unvalidated (name : String) :
    recordNew name = Except.ok ⟨name, [], none⟩ := rfl

/-- C10: the `birthdays` query leaves the directory entirely unchanged —
the same association of keys to records (hence the same names, phone
lists and birthdays) comes out of the handler, both before and after
the `input_error` boundary. -/
theorem birthdays_query_preserves_directory (today : SDate)
    (args : List String) (book : AddressBook) :
    (bdays today args book).2 = book ∧
      (input_error (bdays today) args book).2 = book := by
  have h1 : (bdays today args book).2 = book := by
    unfold bdays
    cases hq : get_upcoming_birthdays today book with
    | error e => rfl
    | ok lst => cases lst <;> rfl
  refine ⟨h1, ?_⟩
  unfold input_error
  rcases hb2 : bdays today args book with ⟨res, bk⟩
  have hbk : bk = book := by
    rw [hb2] at h1
    exact h1
  cases res <;> exact hbk

end GoitH8
